import Mathlib

/-!
Shallow embedding of the tidytask-backend REST service (Node/Express + Mongoose),
covering the task controller (src/controllers/tasks.controller.js), the auth
controller (src/controllers/auth.controller.js), the JWT middleware
(src/utils/decorators.js) and the user model (src/models/user.model.js).

Conventions of the embedding:
* Mongo object ids are `Nat`; timestamps (`Date.now()`) are `Nat` milliseconds.
* The document stores are association lists (`List UserRec`, `List TaskRec`);
  `findOne` is `List.find?`, `findOneAndUpdate` / `findOneAndDelete` update or
  erase the first matching document.
* External collaborators (yup's email regex, sha256, bcrypt, jwt signing) are
  abstract function parameters, bundled in the `Collab` structure; handlers
  are proved for every instantiation.
* HTTP responses are a status code plus the response body rendered as the JSON
  text the source produces with `res.json`; dynamic fields are spliced in by
  string concatenation, mirroring the key order of the JS object literals.
-/

/-- An HTTP response as produced by `res.status(...).json(...)`. -/
structure HttpResponse where
  status : Nat
  body : String
deriving DecidableEq, Repr

/-- External collaborators of the controllers: yup's email format check,
sha256 hex digest, bcrypt hashing/comparison, and jwt signing of the
`\x7buserId, email\x7d` claim set. All are pure in the source per request. -/
structure Collab where
  emailValid : String → Bool
  sha256 : String → String
  bcryptHash : String → String
  bcryptCompare : String → String → Bool
  jwtSign : Nat → String → String

/-! ## Time-of-day validation (tasks.controller.js, createTaskSchema / updateTaskSchema)

The yup `valid-time-format` test: a missing / null / empty value passes; else
the value must match `^([01]?[0-9]|2[0-3]):[0-5][0-9]$` and, after
`split(':')`, the numeric hour must lie in 0..23 and the minutes in 0..59.
Characters are handled through their code points (':' is 58, '0'..'9' are
48..57). -/

/-- Character class `[0-9]` of the time regex. -/
def isDigitCh (c : Char) : Bool := 48 ≤ c.toNat && c.toNat ≤ 57

/-- Character class `[0-5]` of the time regex. -/
def isDigit05 (c : Char) : Bool := 48 ≤ c.toNat && c.toNat ≤ 53

/-- The regex `^([01]?[0-9]|2[0-3]):[0-5][0-9]$`: an optional leading `0`/`1`
before a digit, or `2` followed by `[0-3]`, then `:`, then `[0-5][0-9]`. -/
def timeRegexMatch : List Char → Bool
  | [h, c, m1, m2] =>
      isDigitCh h && c.toNat = 58 && isDigit05 m1 && isDigitCh m2
  | [h1, h2, c, m1, m2] =>
      ((h1.toNat = 48 || h1.toNat = 49) && isDigitCh h2 ||
        (h1.toNat = 50 && 48 ≤ h2.toNat && h2.toNat ≤ 51)) &&
      c.toNat = 58 && isDigit05 m1 && isDigitCh m2
  | _ => false

/-- Numeric value of a decimal digit character, as `Number` reads it. -/
def digitVal (c : Char) : Nat := c.toNat - 48

/-- `Number(s)` on a string of decimal digits. -/
def natOfDigits (l : List Char) : Nat := l.foldl (fun a c => 10 * a + digitVal c) 0

/-- JavaScript `value.split(':')` at the character level. -/
def splitOnColon : List Char → List (List Char)
  | [] => [[]]
  | c :: rest =>
      match splitOnColon rest with
      | [] => if c.toNat = 58 then [[], [c]] else [[c]]
      | g :: gs => if c.toNat = 58 then [] :: g :: gs else (c :: g) :: gs

/-- The follow-up check of the yup test: `hours >= 0 && hours <= 23 &&
minutes >= 0 && minutes <= 59` on the two `split(':')` pieces. -/
def hourMinuteRangeOk (l : List Char) : Bool :=
  match splitOnColon l with
  | [hs, ms] => natOfDigits hs ≤ 23 && natOfDigits ms ≤ 59
  | _ => false

/-- The complete `valid-time-format` yup test on an optional `time` field:
absent, null, or `""` is accepted outright; otherwise the regex and the
range check must both pass. This very test appears verbatim in both
`createTaskSchema` and `updateTaskSchema`. -/
def timeFieldValid (v : Option String) : Bool :=
  match v with
  | none => true
  | some s => if s = "" then true else timeRegexMatch s.data && hourMinuteRangeOk s.data

/-- The `time` validator of `createTaskSchema` (identical test function). -/
def createTaskTimeValid : Option String → Bool := timeFieldValid

/-- The `time` validator of `updateTaskSchema` (identical test function). -/
def updateTaskTimeValid : Option String → Bool := timeFieldValid

/-- The acceptance set claimed by the spec, transcribed from its words:
absent / null / empty, or strict two-digit `HH:MM` with hours 00-23 and
minutes 00-59. (Spec-side definition, for comparison with the code.) -/
def specTwoDigitTimeAccepted (v : Option String) : Bool :=
  match v with
  | none => true
  | some s =>
      if s = "" then true else
      match s.data with
      | [h1, h2, c, m1, m2] =>
          ((h1.toNat = 48 || h1.toNat = 49) && isDigitCh h2 ||
            (h1.toNat = 50 && 48 ≤ h2.toNat && h2.toNat ≤ 51)) &&
          c.toNat = 58 && isDigit05 m1 && isDigitCh m2
      | _ => false

/-- The acceptance set the code actually implements, written out: absent /
null / empty, or `H:MM` with a single-digit hour, or two-digit-hour `HH:MM`
with hour 00-19 or 20-23, minutes always two digits 00-59. -/
def amendedTimeAccepted (v : Option String) : Bool :=
  match v with
  | none => true
  | some s =>
      if s = "" then true else
      match s.data with
      | [h, c, m1, m2] =>
          isDigitCh h && c.toNat = 58 && isDigit05 m1 && isDigitCh m2
      | [h1, h2, c, m1, m2] =>
          ((h1.toNat = 48 || h1.toNat = 49) && isDigitCh h2 ||
            (h1.toNat = 50 && 48 ≤ h2.toNat && h2.toNat ≤ 51)) &&
          c.toNat = 58 && isDigit05 m1 && isDigitCh m2
      | _ => false

/-! ## Task store and task controller -/

/-- A task document (src/models/task.model.js): `user` is the owning user's
object id, `status` one of the three enum values, default `"Por hacer"`. -/
structure TaskRec where
  id : Nat
  title : String
  detail : Option String
  date : Nat
  time : Option String
  status : String
  user : Nat
deriving DecidableEq, Repr

abbrev TaskStore := List TaskRec

/-- `Task.findOne(\x7b _id: taskId, user: userId \x7d)` — the ownership-scoped
lookup every single-task handler uses. -/
def findTask (s : TaskStore) (taskId userId : Nat) : Option TaskRec :=
  List.find? (fun t => t.id = taskId && t.user = userId) s

/-- Body of every 404 the task controller sends: `\x7b message: 'Task not found' \x7d`. -/
def taskNotFoundBody : String := "\x7b\"message\":\"Task not found\"\x7d"

/-- Rendering of a task document inside a success body (field order of the
JS object; the exact text is never load-bearing, only its functional
dependence on the task). -/
def renderTask (t : TaskRec) : String :=
  "\x7b\"_id\":" ++ toString t.id ++ ",\"title\":\"" ++ t.title ++
  "\",\"date\":" ++ toString t.date ++ ",\"status\":\"" ++ t.status ++
  "\",\"user\":" ++ toString t.user ++ "\x7d"

/-- `GET /tasks/:id` (getTaskById): look up by (id AND owner); missing or
foreign task yields the uniform 404. -/
def getTaskById (s : TaskStore) (userId taskId : Nat) : HttpResponse :=
  match findTask s taskId userId with
  | none => ⟨404, taskNotFoundBody⟩
  | some t =>
      ⟨200, "\x7b\"message\":\"Task retrieved successfully\",\"task\":" ++ renderTask t ++ "\x7d"⟩

/-- `DELETE /tasks/:id` (deleteTask): `findOneAndDelete(\x7b _id, user \x7d)` —
erases the first matching document, 404 when none matches. -/
def deleteTask (s : TaskStore) (userId taskId : Nat) : HttpResponse × TaskStore :=
  match findTask s taskId userId with
  | none => (⟨404, taskNotFoundBody⟩, s)
  | some _ =>
      (⟨200, "\x7b\"message\":\"Task deleted successfully\"\x7d"⟩,
        List.eraseP (fun t => t.id = taskId && t.user = userId) s)

/-- The update payload of `PUT /tasks/:id`. The handler passes `req.body`
itself to `findOneAndUpdate`, so besides the five schema fields a `user` key
in the body is applied as well (yup's object schema ignores unknown keys). -/
structure UpdateBody where
  title : Option String := none
  detail : Option String := none
  date : Option Nat := none
  time : Option String := none
  status : Option String := none
  user : Option Nat := none
deriving DecidableEq, Repr

/-- `updateTaskSchema.validate(req.body)`: every field optional; `time` runs
the `valid-time-format` test, `status` must be one of the three enum values
when present. Unknown keys (such as `user`) are not part of the shape and
pass untouched. -/
def updateBodyValid (b : UpdateBody) : Bool :=
  updateTaskTimeValid b.time &&
  (match b.status with
    | none => true
    | some st => st = "Por hacer" || st = "Haciendo" || st = "Hecho")

/-- Mongoose applies an operator-free update document as `$set` of every
present field — including `user` when the raw body carries one. -/
def applyUpdate (b : UpdateBody) (t : TaskRec) : TaskRec :=
  { t with
    title := b.title.getD t.title
    detail := match b.detail with | none => t.detail | some d => some d
    date := b.date.getD t.date
    time := match b.time with | none => t.time | some v => some v
    status := b.status.getD t.status
    user := b.user.getD t.user }

/-- Replace the first element satisfying `p` by its image under `f`
(`findOneAndUpdate` / `document.save()` semantics on a Mongo collection). -/
def updateFirst {α : Type} (p : α → Bool) (f : α → α) : List α → List α
  | [] => []
  | t :: ts => if p t then f t :: ts else t :: updateFirst p f ts

/-- `PUT /tasks/:id` (updateTask): validate, then
`findOneAndUpdate(\x7b _id: taskId, user: userId \x7d, req.body, \x7b new: true \x7d)`;
404 when nothing matches, 400 on a validation error. -/
def updateTask (s : TaskStore) (userId taskId : Nat) (b : UpdateBody) :
    HttpResponse × TaskStore :=
  if updateBodyValid b then
    match findTask s taskId userId with
    | none => (⟨404, taskNotFoundBody⟩, s)
    | some t =>
        (⟨200, "\x7b\"message\":\"Task updated successfully\",\"task\":" ++
            renderTask (applyUpdate b t) ++ "\x7d"⟩,
          updateFirst (fun x => x.id = taskId && x.user = userId) (applyUpdate b) s)
  else
    (⟨400, "\x7b\"message\":\"Validation failed\"\x7d"⟩, s)

/-! ## User store (src/models/user.model.js) -/

/-- A user document. `firstName`, `lastName`, `email`, `password` and `age`
are `required` paths of the mongoose schema; the reset pair, `googleId` and
`avatar` are optional. `age` is an `Option` here because a *candidate*
document built by `new User(...)` may lack it — `save()` then rejects it
(see `userModelValid`). -/
structure UserRec where
  id : Nat
  firstName : String
  lastName : String
  email : String
  password : String
  resetPasswordToken : Option String := none
  resetPasswordExpires : Option Nat := none
  age : Option Int := none
  googleId : Option String := none
  avatar : Option String := none
deriving DecidableEq, Repr

abbrev UserStore := List UserRec

/-- Mongoose `required` validation run by `save()`: each required path must
be present, and a required `String` path must be non-empty. -/
def userModelValid (u : UserRec) : Bool :=
  u.firstName ≠ "" && u.lastName ≠ "" && u.email ≠ "" && u.password ≠ "" && u.age.isSome

/-- `User.findOne(\x7b email \x7d)`. -/
def findByEmail (s : UserStore) (e : String) : Option UserRec :=
  List.find? (fun u => u.email = e) s

/-! ## Authorization middleware (src/utils/decorators.js, verifyToken)

`requireAuth` simply delegates to `verifyToken`. The source reads
`req.headers.authorization?.split(' ')[1]`, answers 401 "No token provided"
when that is falsy (absent header, no second segment, or empty segment),
401 "Invalid token" when `jwt.verify` throws, and otherwise attaches the
decoded `\x7buserId, email\x7d` to `req.user` and calls `next()`. -/

/-- JavaScript `header.split(' ')` at the character level (' ' is 32). -/
def splitOnSpaceAux : List Char → List (List Char)
  | [] => [[]]
  | c :: rest =>
      match splitOnSpaceAux rest with
      | [] => if c.toNat = 32 then [[], [c]] else [[c]]
      | g :: gs => if c.toNat = 32 then [] :: g :: gs else (c :: g) :: gs

/-- JavaScript `s.split(' ')`. -/
def jsSplitSpace (s : String) : List String := (splitOnSpaceAux s.data).map String.mk

/-- `req.headers.authorization?.split(' ')[1]`. -/
def extractBearer (header : Option String) : Option String :=
  header.bind (fun s => (jsSplitSpace s).get? 1)

/-- `\x7b message: 'No token provided' \x7d`. -/
def noTokenBody : String := "\x7b\"message\":\"No token provided\"\x7d"

/-- `\x7b message: 'Invalid token' \x7d`. -/
def invalidTokenBody : String := "\x7b\"message\":\"Invalid token\"\x7d"

/-- Outcome of a middleware: an early response, or `next()` with the decoded
identity attached to `req.user`. -/
inductive AuthOutcome where
  | reject (resp : HttpResponse)
  | proceed (userId : Nat) (email : String)
deriving DecidableEq, Repr

/-- The `verifyToken` middleware. `verify` is `jwt.verify(·, secretKey)`,
abstract: `none` models a throw (corrupt structure, bad signature, or
expiry in the past), `some (userId, email)` a successful decode. -/
def verifyToken (verify : String → Option (Nat × String)) (header : Option String) :
    AuthOutcome :=
  match extractBearer header with
  | none => .reject ⟨401, noTokenBody⟩
  | some t =>
      if t = "" then .reject ⟨401, noTokenBody⟩
      else
        match verify t with
        | none => .reject ⟨401, invalidTokenBody⟩
        | some (uid, em) => .proceed uid em

/-- `verifyToken` with the stores threaded through, witnessing that the
middleware touches no stored state. -/
def verifyTokenSt (verify : String → Option (Nat × String)) (header : Option String)
    (users : UserStore) (tasks : TaskStore) : AuthOutcome × UserStore × TaskStore :=
  (verifyToken verify header, users, tasks)

/-! ## Auth controller (src/controllers/auth.controller.js) -/

/-- `POST /auth/signup` request body: every key may be missing in the JSON. -/
structure SignupBody where
  firstName : Option String := none
  lastName : Option String := none
  age : Option Int := none
  email : Option String := none
  password : Option String := none
deriving DecidableEq, Repr

/-- `signupSchema`: `firstName`/`lastName` required (yup rejects a missing
or empty string), `age` optional with `min(0)`, `email` required and
format-checked, `password` required with `min(6)`. -/
def signupBodyValid (x : Collab) (b : SignupBody) : Bool :=
  (match b.firstName with | some s => s ≠ "" | none => false) &&
  (match b.lastName with | some s => s ≠ "" | none => false) &&
  (match b.age with | none => true | some a => 0 ≤ a) &&
  (match b.email with | some e => e ≠ "" && x.emailValid e | none => false) &&
  (match b.password with | some p => 6 ≤ p.length | none => false)

/-- Rendering of the `user` object the auth controller returns
(`\x7bid, firstName, lastName, email, age\x7d` — same key set in signup,
login and resetPassword). -/
def renderUser (u : UserRec) : String :=
  "\x7b\"id\":" ++ toString u.id ++ ",\"firstName\":\"" ++ u.firstName ++
  "\",\"lastName\":\"" ++ u.lastName ++ "\",\"email\":\"" ++ u.email ++
  "\",\"age\":" ++ (match u.age with | some a => toString a | none => "null") ++ "\x7d"

/-- Stand-in text for a yup 400 body, `\x7b message: error.message \x7d` —
the exact yup message string is not load-bearing for any claim. -/
def yupFailBody : String := "\x7b\"message\":\"Validation error\"\x7d"

/-- Stand-in text for a mongoose `ValidationError` 400 body in `signup`
(`\x7b message: error.message \x7d`, e.g. `User validation failed: age: ...`). -/
def mongooseFailBody : String := "\x7b\"message\":\"User validation failed\"\x7d"

/-- `POST /auth/signup`: yup validation (also enforced by the
`validateRequest(signupSchema)` middleware in front of the handler), 409 on
an existing email, then `new User(...)` + `save()`; a mongoose
`ValidationError` from `save()` is mapped to 400 by the catch clause.
`freshId` is the object id Mongo assigns to the new document. -/
def signup (x : Collab) (s : UserStore) (freshId : Nat) (b : SignupBody) :
    HttpResponse × UserStore :=
  if signupBodyValid x b then
    match findByEmail s (b.email.getD "") with
    | some _ => (⟨409, "\x7b\"message\":\"This email is already registered.\"\x7d"⟩, s)
    | none =>
        let newUser : UserRec :=
          { id := freshId, firstName := b.firstName.getD "", lastName := b.lastName.getD "",
            email := b.email.getD "", password := x.bcryptHash (b.password.getD ""),
            age := b.age }
        if userModelValid newUser then
          (⟨201, "\x7b\"message\":\"User created successfully\",\"userId\":" ++
              toString freshId ++ ",\"token\":\"" ++ x.jwtSign freshId newUser.email ++
              "\",\"user\":" ++ renderUser newUser ++ "\x7d"⟩,
            s ++ [newUser])
        else (⟨400, mongooseFailBody⟩, s)
  else (⟨400, yupFailBody⟩, s)

/-- `POST /auth/login` request body. -/
structure LoginBody where
  email : Option String := none
  password : Option String := none
deriving DecidableEq, Repr

/-- `loginSchema`: email required + format, password required + `min(6)`. -/
def loginBodyValid (x : Collab) (b : LoginBody) : Bool :=
  (match b.email with | some e => e ≠ "" && x.emailValid e | none => false) &&
  (match b.password with | some p => 6 ≤ p.length | none => false)

/-- The single 401 body of `login`: `\x7b message: "Invalid email or password." \x7d`,
used verbatim for both the unknown-email and the wrong-password branch. -/
def invalidCredentialsBody : String := "\x7b\"message\":\"Invalid email or password.\"\x7d"

/-- `POST /auth/login`: find by email; 401 with the uniform body when absent
or when `bcrypt.compare` fails; otherwise 200 with a fresh 24h token. -/
def login (x : Collab) (s : UserStore) (b : LoginBody) : HttpResponse :=
  if loginBodyValid x b then
    match findByEmail s (b.email.getD "") with
    | none => ⟨401, invalidCredentialsBody⟩
    | some u =>
        if x.bcryptCompare (b.password.getD "") u.password then
          ⟨200, "\x7b\"message\":\"Login successful\",\"token\":\"" ++
            x.jwtSign u.id u.email ++ "\",\"user\":" ++ renderUser u ++ "\x7d"⟩
        else ⟨401, invalidCredentialsBody⟩
  else ⟨400, yupFailBody⟩

/-- `POST /auth/recover-password` request body. -/
structure RecoverBody where
  email : Option String := none
deriving DecidableEq, Repr

/-- First error message of `resetPasswordSchema.validate` (the only field is
`email`, so the message is determined): missing/empty → the `required`
message, present but malformed → the `email` format message. -/
def recoverValidationMsg (x : Collab) (b : RecoverBody) : Option String :=
  match b.email with
  | none => some "Email is required"
  | some e =>
      if e = "" then some "Email is required"
      else if x.emailValid e then none else some "Invalid email format"

/-- The generic 200 body of the recovery flow, identical whether or not the
account exists and whatever the email transport did. -/
def genericRecoverBody : String :=
  "\x7b\"success\":true,\"message\":\"Si existe una cuenta con este email, recibirás un correo con las instrucciones.\"\x7d"

/-- Outcome of `EmailService.sendPasswordResetEmail`: resolved `true`,
resolved falsy, or threw. The handler logs and swallows all three. -/
inductive EmailSendResult where
  | sent
  | failed
  | threw
deriving DecidableEq, Repr

/-- `POST /auth/recover-password`. No `validateRequest` middleware is in
front of this handler (auth.controller.js export), so a yup failure raises
inside the `try` and the catch-all answers **500** with
`"Error en el proceso de recuperación de contraseña: " + error.message`.
With a valid body: unknown email → generic 200, known email → store
`sha256(rawToken)` and `now + 3600000` on the user (one `save()`), attempt
the email, and answer the same generic 200 regardless of `emailResult`. -/
def recoverPassword (x : Collab) (s : UserStore) (b : RecoverBody) (now : Nat)
    (rawToken : String) (emailResult : EmailSendResult) : HttpResponse × UserStore :=
  match recoverValidationMsg x b with
  | some msg =>
      (⟨500, "\x7b\"success\":false,\"message\":\"Error en el proceso de recuperación de contraseña: " ++
          msg ++ "\"\x7d"⟩, s)
  | none =>
      match findByEmail s (b.email.getD "") with
      | none => (⟨200, genericRecoverBody⟩, s)
      | some u =>
          (⟨200, genericRecoverBody⟩,
            updateFirst (fun v => v.id = u.id)
              (fun v => { v with resetPasswordToken := some (x.sha256 rawToken),
                                 resetPasswordExpires := some (now + 3600000) }) s)

/-- `POST /auth/reset-password` request body. -/
structure ResetBody where
  token : Option String := none
  password : Option String := none
deriving DecidableEq, Repr

/-- `newPasswordSchema`: password required + `min(6)`, token required. -/
def resetBodyValid (b : ResetBody) : Bool :=
  (match b.password with | some p => 6 ≤ p.length | none => false) &&
  (match b.token with | some t => t ≠ "" | none => false)

/-- The Mongo predicate of `resetPassword`:
`\x7b resetPasswordToken: hashedToken, resetPasswordExpires: \x7b $gt: Date.now() \x7d \x7d`
(an absent field matches neither equality nor `$gt`). -/
def resetMatches (hashed : String) (now : Nat) (u : UserRec) : Bool :=
  u.resetPasswordToken = some hashed &&
  (match u.resetPasswordExpires with | some e => now < e | none => false)

/-- The 400 body for a wrong or expired reset token. -/
def invalidResetTokenBody : String :=
  "\x7b\"success\":false,\"message\":\"Token inválido o expirado\"\x7d"

/-- The catch-all 500 body of `resetPassword` (also reached by a yup
validation failure, since no middleware validates this route). -/
def resetServerErrorBody : String :=
  "\x7b\"success\":false,\"message\":\"Error al restablecer la contraseña\"\x7d"

/-- `POST /auth/reset-password`: hash the supplied token, `findOne` on
(hash match AND expiry strictly in the future); no match → 400; match →
one `save()` storing the bcrypt hash of the new password and clearing both
reset fields, then 200 with a fresh jwt for that user. -/
def resetPassword (x : Collab) (s : UserStore) (b : ResetBody) (now : Nat) :
    HttpResponse × UserStore :=
  if resetBodyValid b then
    let hashed := x.sha256 (b.token.getD "")
    match List.find? (resetMatches hashed now) s with
    | none => (⟨400, invalidResetTokenBody⟩, s)
    | some u =>
        (⟨200, "\x7b\"success\":true,\"message\":\"Contraseña actualizada exitosamente\",\"token\":\"" ++
            x.jwtSign u.id u.email ++ "\",\"user\":" ++ renderUser u ++ "\x7d"⟩,
          updateFirst (fun v => v.id = u.id)
            (fun v => { v with password := x.bcryptHash (b.password.getD ""),
                               resetPasswordToken := none,
                               resetPasswordExpires := none }) s)
  else (⟨500, resetServerErrorBody⟩, s)

/-! ## Theorems -/

/-- The numeric range re-check of the yup time test is implied by its regex:
on any string the regex accepts, `split(':')` yields the hour digits and the
minute digits, and their values lie in 0..23 and 0..59. -/
lemma timeRegex_range (l : List Char) (h : timeRegexMatch l = true) :
    hourMinuteRangeOk l = true := by
  rcases l with _ | ⟨a, _ | ⟨b, _ | ⟨c, _ | ⟨d, _ | ⟨e, _ | ⟨f, rest⟩⟩⟩⟩⟩⟩
  · simp [timeRegexMatch] at h
  · simp [timeRegexMatch] at h
  · simp [timeRegexMatch] at h
  · simp [timeRegexMatch] at h
  · simp only [timeRegexMatch, isDigitCh, isDigit05, Bool.and_eq_true,
      decide_eq_true_eq] at h
    have hb : b.toNat = 58 := by omega
    have hna : ¬ (a.toNat = 58) := by omega
    have hnc : ¬ (c.toNat = 58) := by omega
    have hnd : ¬ (d.toNat = 58) := by omega
    simp [hourMinuteRangeOk, splitOnColon, hb, hna, hnc, hnd, natOfDigits, digitVal]
    omega
  · simp only [timeRegexMatch, isDigitCh, isDigit05, Bool.and_eq_true,
      Bool.or_eq_true, decide_eq_true_eq] at h
    have hcq : c.toNat = 58 := by omega
    have hna : ¬ (a.toNat = 58) := by omega
    have hnb : ¬ (b.toNat = 58) := by omega
    have hnd : ¬ (d.toNat = 58) := by omega
    have hne : ¬ (e.toNat = 58) := by omega
    simp [hourMinuteRangeOk, splitOnColon, hcq, hna, hnb, hnd, hne, natOfDigits, digitVal]
    omega
  · simp [timeRegexMatch] at h

/-- The code's time test coincides pointwise with the written-out acceptance
set `amendedTimeAccepted` (the regex already forces the numeric ranges). -/
lemma timeFieldValid_eq_amended (v : Option String) :
    timeFieldValid v = amendedTimeAccepted v := by
  cases v with
  | none => rfl
  | some s =>
      by_cases hs : s = ""
      · simp [timeFieldValid, amendedTimeAccepted, hs]
      · simp only [timeFieldValid, amendedTimeAccepted, if_neg hs]
        generalize s.data = l
        rcases l with _ | ⟨a, _ | ⟨b, _ | ⟨c, _ | ⟨d, _ | ⟨e, _ | ⟨f, rest⟩⟩⟩⟩⟩⟩
        · simp [timeRegexMatch]
        · simp [timeRegexMatch]
        · simp [timeRegexMatch]
        · simp [timeRegexMatch]
        · by_cases hr : timeRegexMatch [a, b, c, d] = true
          · simp only [hr, timeRegex_range _ hr, Bool.and_self]
            exact hr.symm
          · have hr' : timeRegexMatch [a, b, c, d] = false := by
              revert hr; cases timeRegexMatch [a, b, c, d] <;> simp
            simp only [hr', Bool.false_and]
            exact hr'.symm
        · by_cases hr : timeRegexMatch [a, b, c, d, e] = true
          · simp only [hr, timeRegex_range _ hr, Bool.and_self]
            exact hr.symm
          · have hr' : timeRegexMatch [a, b, c, d, e] = false := by
              revert hr; cases timeRegexMatch [a, b, c, d, e] <;> simp
            simp only [hr', Bool.false_and]
            exact hr'.symm
        · simp [timeRegexMatch]

/-- C9, amended. The time validator shared by task creation and task update
accepts a value exactly when it is absent, null or empty, or of the form
`H:MM` / `HH:MM` with hour 0-23 (one digit, or two digits whose first is
0, 1 or 2) and two-digit minutes 00-59; all the boundary examples of the
claim behave as stated. The claim's "strict two-digit HH" is the one part
that fails: a single-digit hour such as "9:30" is also accepted. -/
theorem c9_time_validation_amended :
    (∀ v, createTaskTimeValid v = amendedTimeAccepted v) ∧
    (∀ v, updateTaskTimeValid v = amendedTimeAccepted v) ∧
    createTaskTimeValid (some "14:30") = true ∧
    createTaskTimeValid (some "00:00") = true ∧
    createTaskTimeValid (some "23:59") = true ∧
    createTaskTimeValid (some "24:00") = false ∧
    createTaskTimeValid (some "9:5") = false ∧
    createTaskTimeValid (some "14:60") = false ∧
    createTaskTimeValid (some "14:3") = false ∧
    createTaskTimeValid (some "") = true ∧
    createTaskTimeValid none = true ∧
    updateTaskTimeValid (some "14:30") = true ∧
    updateTaskTimeValid (some "24:00") = false := by
  exact ⟨timeFieldValid_eq_amended, timeFieldValid_eq_amended, rfl, rfl, rfl, rfl,
    rfl, rfl, rfl, rfl, rfl, rfl, rfl⟩

/-- C9, counterexample to the claim as stated: `"9:30"` is not absent/empty
and not strict two-digit `HH:MM` (the spec-side reading rejects it), yet
both task schemas accept it. -/
theorem c9_counterexample :
    createTaskTimeValid (some "9:30") = true ∧
    updateTaskTimeValid (some "9:30") = true ∧
    specTwoDigitTimeAccepted (some "9:30") = false := by
  exact ⟨rfl, rfl, rfl⟩

/-- C1. Every single-task handler (GET / PUT / DELETE `/tasks/:id`) filters
its store lookup on (task id AND caller id); whenever no task with the
requested id belongs to the caller — the id does not exist at all, or every
task with that id is owned by someone else — each of the three answers the
identical `404 \x7b message: 'Task not found' \x7d`, and the store is left
untouched: a foreign task is never returned, modified, or deleted. -/
theorem c1_task_ownership_scoped (s : TaskStore) (userId taskId : Nat)
    (h : ∀ t ∈ s, t.id = taskId → t.user ≠ userId) :
    getTaskById s userId taskId = ⟨404, taskNotFoundBody⟩ ∧
    deleteTask s userId taskId = (⟨404, taskNotFoundBody⟩, s) ∧
    (∀ b, updateBodyValid b = true →
      updateTask s userId taskId b = (⟨404, taskNotFoundBody⟩, s)) ∧
    (∀ b, (updateTask s userId taskId b).2 = s) := by
  have hf : findTask s taskId userId = none := by
    refine List.find?_eq_none.mpr ?_
    intro t ht
    simp only [Bool.and_eq_true, decide_eq_true_eq, not_and]
    exact h t ht
  refine ⟨?_, ?_, ?_, ?_⟩
  · simp [getTaskById, hf]
  · simp [deleteTask, hf]
  · intro b hb
    simp [updateTask, hb, hf]
  · intro b
    by_cases hb : updateBodyValid b = true
    · simp [updateTask, hb, hf]
    · simp [updateTask, hb]

/-- Witness for C1 at a concrete input: a store holding one task
(id 1, owner 2) and a request by user 3 for task 1. -/
theorem c1_task_ownership_scoped_witness :
    getTaskById [⟨1, "t", none, 0, none, "Por hacer", 2⟩] 3 1 = ⟨404, taskNotFoundBody⟩ :=
  (c1_task_ownership_scoped [⟨1, "t", none, 0, none, "Por hacer", 2⟩] 3 1 (by decide)).1

/-- C6, evidence of the code bug: `updateTask` hands the raw `req.body` to
`findOneAndUpdate`, and `updateTaskSchema` ignores unknown keys, so the
owner itself can send `\x7b "user": 20 \x7d` in a PUT body and the task's
owner field is reassigned from 10 to 20 — the update even answers 200,
against the spec's "owner immutable after creation" and against the evident
intent of the update schema's field list. -/
theorem c6_owner_mutation :
    ((updateTask [⟨1, "t", none, 0, none, "Por hacer", 10⟩] 10 1
        { user := some 20 }).1.status = 200) ∧
    ((updateTask [⟨1, "t", none, 0, none, "Por hacer", 10⟩] 10 1
        { user := some 20 }).2.map TaskRec.user = [20]) :=
  ⟨rfl, rfl⟩

/-- C2. The `verifyToken` middleware: an absent header, or a header whose
`split(' ')` has no second segment (or an empty one — the falsy check),
answers `401 'No token provided'`; a present non-empty segment that
`jwt.verify` rejects answers `401 'Invalid token'`; a verified token
attaches the decoded `(userId, email)` and proceeds; and none of these
paths touches either store. Proved for every `verify` function, covering
structural corruption, bad signature and expiry uniformly. -/
theorem c2_verify_token (verify : String → Option (Nat × String))
    (users : UserStore) (tasks : TaskStore) :
    (∀ header, (verifyTokenSt verify header users tasks).2 = (users, tasks)) ∧
    (verifyToken verify none = .reject ⟨401, noTokenBody⟩) ∧
    (∀ header, extractBearer header = none →
      verifyToken verify header = .reject ⟨401, noTokenBody⟩) ∧
    (∀ header, extractBearer header = some "" →
      verifyToken verify header = .reject ⟨401, noTokenBody⟩) ∧
    (∀ header t, extractBearer header = some t → t ≠ "" → verify t = none →
      verifyToken verify header = .reject ⟨401, invalidTokenBody⟩) ∧
    (∀ header t uid em, extractBearer header = some t → t ≠ "" →
      verify t = some (uid, em) → verifyToken verify header = .proceed uid em) := by
  refine ⟨fun _ => rfl, rfl, ?_, ?_, ?_, ?_⟩
  · intro header hh
    simp [verifyToken, hh]
  · intro header hh
    simp [verifyToken, hh]
  · intro header t hh ht hv
    simp [verifyToken, hh, ht, hv]
  · intro header t uid em hh ht hv
    simp [verifyToken, hh, ht, hv]

/-- Witness for C2 at a concrete input: a verifier accepting exactly the
token `"good"` as user 7, and the header `Bearer good`. -/
theorem c2_verify_token_witness :
    verifyToken (fun t => if t = "good" then some (7, "a@x.com") else none)
      (some "Bearer good") = .proceed 7 "a@x.com" :=
  (c2_verify_token (fun t => if t = "good" then some (7, "a@x.com") else none)
      [] []).2.2.2.2.2 (some "Bearer good") "good" 7 "a@x.com" rfl (by decide) rfl

/-- A concrete collaborator instantiation for the concrete corollaries: the
email check passes any non-empty string, and the hash / signing functions
are injective taggings. -/
def collabEx : Collab where
  emailValid := fun e => e ≠ ""
  sha256 := fun t => "sha-" ++ t
  bcryptHash := fun p => "bc-" ++ p
  bcryptCompare := fun p h => h = "bc-" ++ p
  jwtSign := fun i e => "jwt-" ++ toString i ++ "-" ++ e

/-- A concrete registered user for the concrete corollaries. -/
def userEx : UserRec :=
  ⟨7, "Ana", "Lopez", "ana@x.com", "bc-correcthorse", none, none, some 30, none, none⟩

/-- C4. For schema-valid login bodies, a request whose email resolves to a
user but whose password fails `bcrypt.compare`, and a request whose email
resolves to no user, produce the very same response: status 401 with the
byte-identical body `\x7b message: "Invalid email or password." \x7d`. -/
theorem c4_login_uniform (x : Collab) (s : UserStore) (b1 b2 : LoginBody) (u : UserRec)
    (hv1 : loginBodyValid x b1 = true) (hv2 : loginBodyValid x b2 = true)
    (hfound : findByEmail s (b1.email.getD "") = some u)
    (hwrong : x.bcryptCompare (b1.password.getD "") u.password = false)
    (hmiss : findByEmail s (b2.email.getD "") = none) :
    login x s b1 = login x s b2 ∧
    login x s b1 = ⟨401, invalidCredentialsBody⟩ := by
  constructor <;> simp [login, hv1, hv2, hfound, hwrong, hmiss]

/-- Witness for C4 at a concrete input: `userEx` is registered; a login
with their email and a wrong password equals a login with an unknown email. -/
theorem c4_login_uniform_witness :
    login collabEx [userEx] { email := some "ana@x.com", password := some "wrongpass" } =
      login collabEx [userEx] { email := some "bob@x.com", password := some "whatever1" } :=
  (c4_login_uniform collabEx [userEx]
    { email := some "ana@x.com", password := some "wrongpass" }
    { email := some "bob@x.com", password := some "whatever1" } userEx
    (by decide) (by decide) (by decide) (by decide) (by decide)).1

/-- C5. For schema-valid recovery bodies, a request for a registered email
and one for an unregistered email both answer status 200 with the
byte-identical generic body — for every outcome of the email-send step
(resolved true, resolved falsy, or thrown), since the handler swallows all
of them. -/
theorem c5_recover_uniform (x : Collab) (s : UserStore) (b1 b2 : RecoverBody)
    (u : UserRec) (now1 now2 : Nat) (tok1 tok2 : String) (r1 r2 : EmailSendResult)
    (hv1 : recoverValidationMsg x b1 = none) (hv2 : recoverValidationMsg x b2 = none)
    (hfound : findByEmail s (b1.email.getD "") = some u)
    (hmiss : findByEmail s (b2.email.getD "") = none) :
    (recoverPassword x s b1 now1 tok1 r1).1 = (recoverPassword x s b2 now2 tok2 r2).1 ∧
    (recoverPassword x s b1 now1 tok1 r1).1 = ⟨200, genericRecoverBody⟩ := by
  constructor <;> simp [recoverPassword, hv1, hv2, hfound, hmiss]

/-- Witness for C5 at a concrete input: recovery for `userEx`'s email with
a throwing email transport, against recovery for an unknown email with a
working transport. -/
theorem c5_recover_uniform_witness :
    (recoverPassword collabEx [userEx] { email := some "ana@x.com" } 5 "tok"
        EmailSendResult.threw).1 =
      (recoverPassword collabEx [userEx] { email := some "bob@x.com" } 9 "tok2"
        EmailSendResult.sent).1 :=
  (c5_recover_uniform collabEx [userEx] { email := some "ana@x.com" }
    { email := some "bob@x.com" } userEx 5 9 "tok" "tok2"
    EmailSendResult.threw EmailSendResult.sent
    (by decide) (by decide) (by decide) (by decide)).1

/-- C7, amended: a body that fails schema validation on these two routes is
*not* recovered into a 400 — no validation middleware guards them, the yup
throw lands in the catch-all, and the response is a 500; for
recover-password the 500 body even embeds the validation error text, for
reset-password it is the generic reset error body. The store is untouched. -/
theorem c7_validation_500 (x : Collab) (s : UserStore) (now : Nat) (tok : String)
    (r : EmailSendResult) :
    (∀ b msg, recoverValidationMsg x b = some msg →
      recoverPassword x s b now tok r =
        (⟨500, "\x7b\"success\":false,\"message\":\"Error en el proceso de recuperación de contraseña: " ++
            msg ++ "\"\x7d"⟩, s)) ∧
    (∀ rb : ResetBody, resetBodyValid rb = false →
      resetPassword x s rb now = (⟨500, resetServerErrorBody⟩, s)) := by
  constructor
  · intro b msg hmsg
    simp [recoverPassword, hmsg]
  · intro rb hrb
    simp [resetPassword, hrb]

/-- Witness for C7's amended statement at a concrete input: a recovery body
with no email field — the 500 body carries the yup message. -/
theorem c7_validation_500_witness :
    recoverPassword collabEx [] { email := none } 0 "t" EmailSendResult.sent =
      (⟨500, "\x7b\"success\":false,\"message\":\"Error en el proceso de recuperación de contraseña: Email is required\"\x7d"⟩,
        []) :=
  (c7_validation_500 collabEx [] 0 "t" EmailSendResult.sent).1 { email := none }
    "Email is required" rfl

/-- C7, counterexample to the claim as stated: a recover-password body with
the email missing and a reset-password body with the token missing are both
schema-invalid, yet the responses are 500s, not structured 400s. -/
theorem c7_counterexample :
    (recoverPassword collabEx [] { email := none } 0 "t" EmailSendResult.sent).1.status = 500 ∧
    (resetPassword collabEx [] { token := none, password := some "newpass1" } 0).1.status = 500 :=
  ⟨rfl, rfl⟩

/-- C10, amended. With non-empty names, a schema-valid unregistered email
and a password of ≥ 6 characters: signup answers 201 with a token and
appends the created user for **any integer age ≥ 0 that is supplied**; but
when `age` is absent the request passes the signup schema and then fails
the user model's `required: true` on `age`, so `save()` throws a mongoose
ValidationError and signup answers 400 — not 201 as the claim states.
(The signup schema also caps nothing above, but rejects negative ages via
`min(0)`, so "any integer" holds only for non-negative ones: a supplied
negative age is answered 400 by the request schema before any store work.) -/
theorem c10_signup_age (x : Collab) (s : UserStore) (fresh : Nat) (b : SignupBody)
    (fn ln em pw : String)
    (hfn : b.firstName = some fn) (hfn1 : fn ≠ "")
    (hln : b.lastName = some ln) (hln1 : ln ≠ "")
    (hem : b.email = some em) (hem1 : em ≠ "") (hem2 : x.emailValid em = true)
    (hpw : b.password = some pw) (hpw1 : 6 ≤ pw.length)
    (hfree : findByEmail s em = none)
    (hbc : x.bcryptHash pw ≠ "") :
    (∀ a : Int, b.age = some a → 0 ≤ a →
      (signup x s fresh b).1.status = 201 ∧
      (signup x s fresh b).2 =
        s ++ [⟨fresh, fn, ln, em, x.bcryptHash pw, none, none, some a, none, none⟩]) ∧
    (b.age = none → signup x s fresh b = (⟨400, mongooseFailBody⟩, s)) ∧
    (∀ a : Int, b.age = some a → a < 0 →
      signup x s fresh b = (⟨400, yupFailBody⟩, s)) := by
  refine ⟨?_, ?_, ?_⟩
  · intro a ha ha0
    have hv : signupBodyValid x b = true := by
      simp [signupBodyValid, hfn, hln, hem, hpw, ha, hfn1, hln1, hem1, hem2, hpw1, ha0]
    simp [signup, hv, hem, hfree, userModelValid, hfn, hln, hpw, ha, hfn1, hln1, hem1, hbc]
  · intro ha
    have hv : signupBodyValid x b = true := by
      simp [signupBodyValid, hfn, hln, hem, hpw, ha, hfn1, hln1, hem1, hem2, hpw1]
    simp [signup, hv, hem, hfree, userModelValid, ha]
  · intro a ha haneg
    have hv : signupBodyValid x b = false := by
      simp [signupBodyValid, ha, not_le.mpr haneg]
    simp [signup, hv]

/-- Witness for C10's amended statement at a concrete input: the same
signup body succeeds with age 30 supplied. -/
theorem c10_signup_age_witness :
    (signup collabEx [] 1
        ⟨some "Ana", some "Lopez", some 30, some "ana@x.com", some "secret1"⟩).1.status
      = 201 :=
  ((c10_signup_age collabEx [] 1
      ⟨some "Ana", some "Lopez", some 30, some "ana@x.com", some "secret1"⟩
      "Ana" "Lopez" "ana@x.com" "secret1" rfl (by decide) rfl (by decide) rfl
      (by decide) (by decide) rfl (by decide) rfl (by decide)).1 30 rfl (by decide)).1

/-- C10, counterexample to the claim as stated: a fully valid signup body
with `age` absent is accepted by the request schema but rejected by the
user model, so the response is 400, not the claimed 201; and the same body
with the integer age -5 supplied is rejected 400 by the signup schema's
`min(0)`, refuting "likewise for any integer age". -/
theorem c10_counterexample :
    signup collabEx [] 1 ⟨some "Ana", some "Lopez", none, some "ana@x.com", some "secret1"⟩ =
      (⟨400, mongooseFailBody⟩, []) ∧
    signup collabEx [] 1 ⟨some "Ana", some "Lopez", some (-5), some "ana@x.com", some "secret1"⟩ =
      (⟨400, yupFailBody⟩, []) :=
  ⟨rfl, rfl⟩

/-- Every element of `updateFirst p f l` is an element of `l` or the image
under `f` of an element of `l`. -/
lemma mem_updateFirst {α : Type} (p : α → Bool) (f : α → α) (l : List α) (v : α)
    (hv : v ∈ updateFirst p f l) : v ∈ l ∨ ∃ w ∈ l, v = f w := by
  induction l with
  | nil => simp [updateFirst] at hv
  | cons a as ih =>
      by_cases hp : p a = true
      · simp only [updateFirst, if_pos hp, List.mem_cons] at hv
        rcases hv with h | h
        · exact Or.inr ⟨a, by simp, h⟩
        · exact Or.inl (by simp [h])
      · simp only [updateFirst, if_neg hp, List.mem_cons] at hv
        rcases hv with h | h
        · exact Or.inl (by simp [h])
        · rcases ih h with h1 | ⟨w, hw, hfw⟩
          · exact Or.inl (by simp [h1])
          · exact Or.inr ⟨w, by simp [hw], hfw⟩

/-- The spec's "both present or both absent" consistency of the reset pair
on a user record. -/
def resetConsistent (u : UserRec) : Bool :=
  u.resetPasswordToken.isSome == u.resetPasswordExpires.isSome

/-- C8. If every user record in the store has the reset-token hash and the
reset expiry both present or both absent, then the store produced by any
signup (creates the pair absent), any recoverPassword (sets both in the one
`save()`), and any resetPassword (clears both in the one `save()`) still
has that property: no operation yields a record with exactly one of the
two set. -/
theorem c8_reset_pair_invariant (x : Collab) (s : UserStore)
    (hs : ∀ u ∈ s, resetConsistent u = true) :
    (∀ fresh b, ∀ u ∈ (signup x s fresh b).2, resetConsistent u = true) ∧
    (∀ b now tok r, ∀ u ∈ (recoverPassword x s b now tok r).2, resetConsistent u = true) ∧
    (∀ b now, ∀ u ∈ (resetPassword x s b now).2, resetConsistent u = true) := by
  refine ⟨?_, ?_, ?_⟩
  · intro fresh b u hu
    by_cases hv : signupBodyValid x b = true
    · rcases hfe : findByEmail s (b.email.getD "") with _ | w
      · by_cases hm : userModelValid
            ⟨fresh, b.firstName.getD "", b.lastName.getD "", b.email.getD "",
              x.bcryptHash (b.password.getD ""), none, none, b.age, none, none⟩ = true
        · simp only [signup, hv, if_true, hfe, hm, if_pos] at hu
          rcases List.mem_append.mp hu with h | h
          · exact hs u h
          · simp only [List.mem_singleton] at h
            subst h
            rfl
        · simp only [signup, hv, if_true, hfe, if_neg hm] at hu
          exact hs u hu
      · simp only [signup, hv, if_true, hfe] at hu
        exact hs u hu
    · simp only [signup, if_neg hv] at hu
      exact hs u hu
  · intro b now tok r u hu
    rcases hm : recoverValidationMsg x b with _ | msg
    · rcases hfe : findByEmail s (b.email.getD "") with _ | w
      · simp only [recoverPassword, hm, hfe] at hu
        exact hs u hu
      · simp only [recoverPassword, hm, hfe] at hu
        rcases mem_updateFirst _ _ _ _ hu with h | ⟨v, hv, hveq⟩
        · exact hs u h
        · subst hveq
          rfl
    · simp only [recoverPassword, hm] at hu
      exact hs u hu
  · intro b now u hu
    by_cases hv : resetBodyValid b = true
    · rcases hfe : List.find? (resetMatches (x.sha256 (b.token.getD "")) now) s with _ | w
      · simp only [resetPassword, hv, if_true, hfe] at hu
        exact hs u hu
      · simp only [resetPassword, hv, if_true, hfe] at hu
        rcases mem_updateFirst _ _ _ _ hu with h | ⟨v, hv2, hveq⟩
        · exact hs u h
        · subst hveq
          rfl
    · simp only [resetPassword, if_neg hv] at hu
      exact hs u hu

/-- Witness for C8 at a concrete input: the user created by a concrete
signup into the empty store satisfies the pair consistency. -/
theorem c8_reset_pair_invariant_witness :
    resetConsistent ⟨1, "Ana", "Lopez", "ana@x.com", "bc-secret1", none, none, some 30, none, none⟩ = true :=
  (c8_reset_pair_invariant collabEx [] (by simp)).1 1
    ⟨some "Ana", some "Lopez", some 30, some "ana@x.com", some "secret1"⟩
    ⟨1, "Ana", "Lopez", "ana@x.com", "bc-secret1", none, none, some 30, none, none⟩
    (by decide)

/-- Unfolding of the Mongo reset predicate into its two conditions. -/
lemma resetMatches_iff (hashed : String) (now : Nat) (u : UserRec) :
    resetMatches hashed now u = true ↔
      (u.resetPasswordToken = some hashed ∧
        ∃ e, u.resetPasswordExpires = some e ∧ now < e) := by
  simp only [resetMatches, Bool.and_eq_true, decide_eq_true_eq]
  constructor
  · rintro ⟨h1, h2⟩
    refine ⟨h1, ?_⟩
    rcases he : u.resetPasswordExpires with _ | e
    · rw [he] at h2
      simp at h2
    · rw [he] at h2
      simp only [decide_eq_true_eq] at h2
      exact ⟨e, rfl, h2⟩
  · rintro ⟨h1, e, he, hlt⟩
    refine ⟨h1, ?_⟩
    rw [he]
    simpa using hlt

/-- After `updateFirst p f`, no element matches `q`, provided `f` kills `q`,
at most one element of the list satisfies `p` (counting duplicates), and
every `q`-match satisfies `p`. -/
lemma updateFirst_no_match {α : Type} (p q : α → Bool) (f : α → α)
    (hf : ∀ w, q (f w) = false) :
    ∀ l : List α, List.Pairwise (fun v w => ¬(p v = true ∧ p w = true)) l →
      (∀ v ∈ l, q v = true → p v = true) →
      ∀ v ∈ updateFirst p f l, q v = false := by
  intro l
  induction l with
  | nil =>
      intro _ _ v hv
      simp [updateFirst] at hv
  | cons a as ih =>
      intro hpw himp v hv
      rcases List.pairwise_cons.mp hpw with ⟨ha, htail⟩
      by_cases hp : p a = true
      · simp only [updateFirst, if_pos hp, List.mem_cons] at hv
        rcases hv with h | h
        · subst h
          exact hf a
        · cases hq : q v
          · rfl
          · exact absurd ⟨hp, himp v (by simp [h]) hq⟩ (ha v h)
      · simp only [updateFirst, if_neg hp, List.mem_cons] at hv
        rcases hv with h | h
        · subst h
          cases hq : q v
          · rfl
          · exact absurd (himp v (by simp) hq) hp
        · exact ih htail (fun w hw hqw => himp w (by simp [hw]) hqw) v h

/-- C3. For a schema-valid body, `resetPassword`: (1) answers 200 exactly
when some stored user's reset hash equals `sha256(rawToken)` and that
user's expiry is strictly in the future; (2) with no such match it answers
the 400 invalid-or-expired body and changes nothing; (3) in particular a
hash-correct token whose window has elapsed gets that same 400 with no
state change; (4) on a match the one store update replaces the matched
user's password by the bcrypt hash of the new one and clears both reset
fields together, and the 200 response carries a fresh bearer token for that
user; and (5) when ids are unique and the hash matches only that user,
replaying the same token after the success answers the 400 with no further
state change — the token is single-use. -/
theorem c3_reset_password (x : Collab) (s : UserStore) (b : ResetBody) (now : Nat)
    (hv : resetBodyValid b = true) :
    ((resetPassword x s b now).1.status = 200 ↔
      ∃ u ∈ s, u.resetPasswordToken = some (x.sha256 (b.token.getD "")) ∧
        ∃ e, u.resetPasswordExpires = some e ∧ now < e) ∧
    (List.find? (resetMatches (x.sha256 (b.token.getD "")) now) s = none →
      resetPassword x s b now = (⟨400, invalidResetTokenBody⟩, s)) ∧
    ((∀ u ∈ s, u.resetPasswordToken = some (x.sha256 (b.token.getD "")) →
        ∀ e, u.resetPasswordExpires = some e → e ≤ now) →
      resetPassword x s b now = (⟨400, invalidResetTokenBody⟩, s)) ∧
    (∀ u, List.find? (resetMatches (x.sha256 (b.token.getD "")) now) s = some u →
      (resetPassword x s b now).1 =
        ⟨200, "\x7b\"success\":true,\"message\":\"Contraseña actualizada exitosamente\",\"token\":\"" ++
          x.jwtSign u.id u.email ++ "\",\"user\":" ++ renderUser u ++ "\x7d"⟩ ∧
      (resetPassword x s b now).2 =
        updateFirst (fun w => w.id = u.id)
          (fun w => { w with password := x.bcryptHash (b.password.getD ""),
                             resetPasswordToken := none,
                             resetPasswordExpires := none }) s) ∧
    (∀ u, List.find? (resetMatches (x.sha256 (b.token.getD "")) now) s = some u →
      (s.map UserRec.id).Nodup →
      (∀ v ∈ s, v.resetPasswordToken = some (x.sha256 (b.token.getD "")) → v = u) →
      ∀ now2, resetPassword x (resetPassword x s b now).2 b now2 =
        (⟨400, invalidResetTokenBody⟩, (resetPassword x s b now).2)) := by
  refine ⟨?_, ?_, ?_, ?_, ?_⟩
  · rcases hfe : List.find? (resetMatches (x.sha256 (b.token.getD "")) now) s with _ | u
    · have hno : ¬∃ u ∈ s, u.resetPasswordToken = some (x.sha256 (b.token.getD "")) ∧
          ∃ e, u.resetPasswordExpires = some e ∧ now < e := by
        rintro ⟨u, hu, h1, e, he, hlt⟩
        exact List.find?_eq_none.mp hfe u hu ((resetMatches_iff _ _ _).mpr ⟨h1, e, he, hlt⟩)
      simp [resetPassword, hv, hfe, hno]
    · have hyes : ∃ w ∈ s, w.resetPasswordToken = some (x.sha256 (b.token.getD "")) ∧
          ∃ e, w.resetPasswordExpires = some e ∧ now < e := by
        rcases (resetMatches_iff _ _ _).mp (List.find?_some hfe) with ⟨h1, e, he, hlt⟩
        exact ⟨u, List.mem_of_find?_eq_some hfe, h1, e, he, hlt⟩
      simp [resetPassword, hv, hfe, hyes]
  · intro hfe
    simp [resetPassword, hv, hfe]
  · intro hexp
    have hfe : List.find? (resetMatches (x.sha256 (b.token.getD "")) now) s = none := by
      refine List.find?_eq_none.mpr ?_
      intro v hvm hm
      rcases (resetMatches_iff _ _ _).mp hm with ⟨h1, e, he, hlt⟩
      exact absurd hlt (not_lt.mpr (hexp v hvm h1 e he))
    simp [resetPassword, hv, hfe]
  · intro u hfe
    constructor
    · simp [resetPassword, hv, hfe]
    · simp [resetPassword, hv, hfe]
  · intro u hfe hnd huniq now2
    have hs2 : (resetPassword x s b now).2 =
        updateFirst (fun w => w.id = u.id)
          (fun w => { w with password := x.bcryptHash (b.password.getD ""),
                             resetPasswordToken := none,
                             resetPasswordExpires := none }) s := by
      simp [resetPassword, hv, hfe]
    have hclear : ∀ v ∈ updateFirst (fun w : UserRec => w.id = u.id)
        (fun w => { w with password := x.bcryptHash (b.password.getD ""),
                           resetPasswordToken := none,
                           resetPasswordExpires := none }) s,
        (fun w : UserRec => (decide (w.resetPasswordToken = some (x.sha256 (b.token.getD ""))))) v = false := by
      refine updateFirst_no_match _ _ _ (fun w => by simp) s ?_ ?_
      · have h1 : List.Pairwise (fun v w : UserRec => v.id ≠ w.id) s :=
          List.pairwise_map.mp hnd
        refine h1.imp ?_
        intro v w hne hc
        rcases hc with ⟨hvp, hwp⟩
        simp only [decide_eq_true_eq] at hvp hwp
        exact hne (hvp.trans hwp.symm)
      · intro v hvm hq
        simp only [decide_eq_true_eq] at hq ⊢
        rw [huniq v hvm hq]
    have hfe2 : List.find? (resetMatches (x.sha256 (b.token.getD "")) now2)
        (updateFirst (fun w : UserRec => w.id = u.id)
          (fun w => { w with password := x.bcryptHash (b.password.getD ""),
                             resetPasswordToken := none,
                             resetPasswordExpires := none }) s) = none := by
      refine List.find?_eq_none.mpr ?_
      intro v hv2 hm
      rcases (resetMatches_iff _ _ _).mp hm with ⟨h1, _⟩
      have := hclear v hv2
      simp only [decide_eq_true_eq] at this
      simp [h1] at this
    rw [hs2]
    simp [resetPassword, hv, hfe2]

/-- Witness for C3 at a concrete input: a stored user holding the sha of
token `tok123` with expiry 100, reset at time 50 — the exchange succeeds. -/
theorem c3_reset_password_witness :
    (resetPassword collabEx
        [⟨7, "Ana", "Lopez", "ana@x.com", "bc-old", some "sha-tok123", some 100, some 30, none, none⟩]
        ⟨some "tok123", some "newpass1"⟩ 50).1.status = 200 :=
  ((c3_reset_password collabEx
      [⟨7, "Ana", "Lopez", "ana@x.com", "bc-old", some "sha-tok123", some 100, some 30, none, none⟩]
      ⟨some "tok123", some "newpass1"⟩ 50 (by decide)).1).mpr
    ⟨⟨7, "Ana", "Lopez", "ana@x.com", "bc-old", some "sha-tok123", some 100, some 30, none, none⟩,
      by decide, by decide, 100, rfl, by decide⟩
